import Mathlib

/-!
# Leadway-Backend — shallow embedding and verification

Shallow embedding of the authentication service in `routes/auth.js`,
`middleware/authMiddleware.js`, `models/user.js` and `config/email.js` of the
Leadway-Backend repository, together with proofs about the embedded handlers.

Modelling conventions:
* The Mongo `User` collection is a list of user records; `findOne {email}` and
  `findById` are first-match searches; `findOneAndUpdate({_id}, {verified:true},
  {new:true})` maps the update over the list and returns the updated document.
* JSON web tokens are modelled symbolically: a signed token records its payload,
  the secret it was signed with, and its absolute expiry instant; a tampered or
  otherwise malformed token is a separate constructor.  `jwt.verify` checks the
  secret first (signature), then expiry, as the jsonwebtoken library does.
* bcrypt is modelled as a salted hash that `bcryptCompare` can check against the
  plaintext; no plaintext recovery is modelled.
* Response bodies are a small JSON value type; the long HTML pages of the
  verify-email route are abbreviated to strings carrying exactly the dynamic
  data interpolated by the source (the user's full name).
* `process.env` values `JWT_EXPIRES_IN` / `REFRESH_TOKEN_EXPIRES_IN` are a
  `Config` record; the two signing secrets are the symbolic constants
  `Secret.jwtSecret` (`JWT_SECRET`) and `Secret.refreshSecret`
  (`REFRESH_TOKEN_SECRET`).
* `createdAt`/`updatedAt` timestamps are not modelled (no claim mentions them).
-/

namespace Leadway

/-- The two signing secrets of the service (`process.env.JWT_SECRET` and
`process.env.REFRESH_TOKEN_SECRET`). -/
inductive Secret where
  | jwtSecret
  | refreshSecret
deriving DecidableEq, Repr

/-- A JWT payload as the service uses it: an `id` claim, and optionally an
`email` claim (`jwt.sign({id, email}, ...)` for access/refresh tokens,
`jwt.sign({id}, ...)` for verification tokens). -/
structure Payload where
  id : Nat
  email : Option String
deriving DecidableEq, Repr

/-- A symbolic JWT: either a token properly signed with some secret and
carrying an expiry instant, or a malformed/tampered string. -/
inductive Jwt where
  | signed (payload : Payload) (secret : Secret) (exp : Nat)
  | malformed (s : String)
deriving DecidableEq, Repr

/-- The two failure classes of `jwt.verify`: `TokenExpiredError`, and any other
verification failure (bad signature, malformed token). -/
inductive JwtError where
  | expired
  | invalid
deriving DecidableEq, Repr

/-- Model of `jwt.verify(token, secret)`: signature (secret) is checked first,
then expiry; on success the payload is returned. -/
def jwtVerify (sec : Secret) (now : Nat) : Jwt → Except JwtError Payload
  | .signed p s exp =>
      if s = sec then
        if now < exp then .ok p else .error .expired
      else .error .invalid
  | .malformed _ => .error .invalid

/-- Token lifetimes from the environment (`JWT_EXPIRES_IN`,
`REFRESH_TOKEN_EXPIRES_IN`), in seconds. -/
structure Config where
  jwtExpiresIn : Nat
  refreshExpiresIn : Nat
deriving DecidableEq, Repr

/-- Model of a bcrypt hash: the salt and the (one-way, opaque) digest of the
plaintext.  The model keeps the preimage only so that `bcryptCompare` can be
evaluated; the service never reads it back. -/
structure BcryptHash where
  salt : Nat
  digestOf : String
deriving DecidableEq, Repr

/-- `bcrypt.hash(plain, salt)`. -/
def bcryptHash (plain : String) (salt : Nat) : BcryptHash :=
  ⟨salt, plain⟩

/-- `bcrypt.compare(plain, hash)`. -/
def bcryptCompare (plain : String) (h : BcryptHash) : Bool :=
  plain == h.digestOf

/-- A stored `User` document (`models/user.js`): fullName, unique email, hashed
password, and the `verified` flag that defaults to `false`. -/
structure User where
  id : Nat
  fullName : String
  email : String
  password : BcryptHash
  verified : Bool
deriving DecidableEq, Repr

/-- The `User` collection. -/
abbrev UserStore := List User

/-- `User.findOne({ email })`. -/
def findByEmail (db : UserStore) (email : String) : Option User :=
  db.find? (fun u => u.email == email)

/-- `User.findById(id)` / lookup by `_id`. -/
def findById (db : UserStore) (uid : Nat) : Option User :=
  db.find? (fun u => u.id == uid)

/-- The store after `findOneAndUpdate({_id: uid}, {verified: true})`. -/
def setVerified (db : UserStore) (uid : Nat) : UserStore :=
  db.map (fun u => if u.id == uid then { u with verified := true } else u)

/-- JSON values as they appear in the service's response bodies.  A `jwt` leaf
is an encoded token string (opaque scalar at the JSON level). -/
inductive Json where
  | str (s : String)
  | nat (n : Nat)
  | bool (b : Bool)
  | jwt (t : Jwt)
  | obj (fields : List (String × Json))
  | arr (elems : List Json)

/-- An HTTP response: status code and JSON (or HTML-as-string) body. -/
structure Response where
  status : Nat
  body : Json

mutual

/-- Whether a key occurs anywhere (recursively) as an object key in a JSON
value. -/
def hasKey (k : String) : Json → Bool
  | .obj fields => hasKeyFields k fields
  | .arr elems => hasKeyElems k elems
  | _ => false

def hasKeyFields (k : String) : List (String × Json) → Bool
  | [] => false
  | (key, v) :: rest => key == k || hasKey k v || hasKeyFields k rest

def hasKeyElems (k : String) : List Json → Bool
  | [] => false
  | v :: rest => hasKey k v || hasKeyElems k rest

end

/-- Model of express-validator's `isEmail` check (the exact RFC details are
irrelevant to every claim; what matters is that it is a pure predicate on the
string): exactly one `@`, non-empty local part, non-empty domain containing a
dot.  Character-level, so that it evaluates by kernel reduction. -/
def isEmail (s : String) : Bool :=
  let cs := s.data
  cs.count '@' == 1 &&
    (let lp := cs.takeWhile (fun c => !(c == '@'))
     let dom := (cs.dropWhile (fun c => !(c == '@'))).drop 1
     !lp.isEmpty && !dom.isEmpty && dom.contains '.')

/-- `res.status(400).json({ errors: errors.array() })` — each express-validator
error is serialised with its field path and message. -/
def errorsBody (errs : List (String × String)) : Json :=
  .obj [("errors", .arr (errs.map (fun e => .obj [("path", .str e.1), ("msg", .str e.2)])))]

/-- `generateTokens(user)` (`routes/auth.js` lines 18–32): an access token and
a refresh token, both carrying `{id, email}`, signed with their respective
secrets and lifetimes. -/
def generateTokens (cfg : Config) (u : User) (now : Nat) : Jwt × Jwt :=
  (Jwt.signed ⟨u.id, some u.email⟩ .jwtSecret (now + cfg.jwtExpiresIn),
   Jwt.signed ⟨u.id, some u.email⟩ .refreshSecret (now + cfg.refreshExpiresIn))

/-- The email-verification token signed at signup (`routes/auth.js` lines
79–81): `jwt.sign({id: newUser._id}, JWT_SECRET, {expiresIn: "1h"})`. -/
def verificationToken (uid now : Nat) : Jwt :=
  Jwt.signed ⟨uid, none⟩ .jwtSecret (now + 3600)

/-! ## POST /signup (`routes/auth.js` lines 35–108) -/

/-- Request body of `POST /signup`. -/
structure SignupReq where
  fullName : String
  email : String
  password : String
deriving DecidableEq, Repr

/-- The express-validator chain of `/signup` (lines 38–48), collecting every
violated rule with its message, in declaration order. -/
def signupValidationErrors (r : SignupReq) : List (String × String) :=
  (if r.fullName.data.isEmpty then [("fullName", "Full Name is required")] else []) ++
  (if isEmail r.email then [] else [("email", "Please enter a valid email")]) ++
  (if 8 ≤ r.password.data.length then [] else [("password", "Password Must be at least 8 characters")]) ++
  (if r.password.data.any Char.isDigit then [] else [("password", "Password Must contain a number")]) ++
  (if r.password.data.any Char.isUpper then [] else [("password", "Password Must contain an uppercase letter")])

/-- Outcome of `transporter.sendMail` (external collaborator; the handler only
observes success or a thrown error). -/
inductive MailResult where
  | delivered
  | failed
deriving DecidableEq, Repr

/-- The `POST /signup` handler.  `freshId` is the `_id` Mongo assigns to the new
document, `salt` the salt drawn by `bcrypt.genSalt(10)`, `now` the current
time, `mail` the outcome of the verification-email dispatch.  Returns the store
after the request together with the response.  Note that when the mail dispatch
fails the handler's `catch` answers 500 but the already-`save()`d user stays in
the store (no rollback). -/
def signup (db : UserStore) (r : SignupReq) (freshId salt now : Nat)
    (mail : MailResult) : UserStore × Response :=
  let errs := signupValidationErrors r
  if !errs.isEmpty then
    (db, ⟨400, errorsBody errs⟩)
  else
    match findByEmail db r.email with
    | some _ => (db, ⟨400, .obj [("message", .str "User already exists")]⟩)
    | none =>
        let newUser : User :=
          ⟨freshId, r.fullName, r.email, bcryptHash r.password salt, false⟩
        let db' := db ++ [newUser]
        -- lines 79–85: the signed token embedded in the verification email
        let _token := verificationToken freshId now
        match mail with
        | .failed => (db', ⟨500, .obj [("message", .str "Server error")]⟩)
        | .delivered =>
            (db', ⟨201, .obj [("message",
              .str "Signup successful! Please check your email to verify your account")]⟩)

/-! ## GET /verify-email/:token (`routes/auth.js` lines 112–232)

The HTML pages are abbreviated to strings carrying exactly the dynamic data the
source interpolates into them (the user's full name on success; the static
error texts otherwise). -/

def verifyFailedHtml : String :=
  "Verification Failed: Invalid or expired verification token."

def userNotFoundHtml : String :=
  "User Not Found: The user associated with this token could not be found."

def verifySuccessHtml (fullName : String) : String :=
  "Email Verified Successfully! Welcome, " ++ fullName

/-- The `GET /verify-email/:token` handler.  The token is verified against
`JWT_SECRET` only (the same secret that signs access tokens); on success the
user with the decoded `id` has `verified` set to `true` via `findOneAndUpdate`
and the success page shows the updated document's full name.  (The
`if (!token)` branch at line 115 is unreachable for a routed request, since
Express matches the route only with a non-empty path parameter; it is not
modelled.) -/
def verifyEmail (db : UserStore) (tok : Jwt) (now : Nat) : UserStore × Response :=
  match jwtVerify .jwtSecret now tok with
  | .error _ => (db, ⟨400, .str verifyFailedHtml⟩)
  | .ok p =>
      match findById db p.id with
      | none => (db, ⟨400, .str userNotFoundHtml⟩)
      | some u => (setVerified db p.id, ⟨200, .str (verifySuccessHtml u.fullName)⟩)

/-! ## POST /signin (`routes/auth.js` lines 234–297) -/

/-- Request body of `POST /signin`. -/
structure SigninReq where
  email : String
  password : String
deriving DecidableEq, Repr

/-- The express-validator chain of `/signin` (lines 237–240). -/
def signinValidationErrors (r : SigninReq) : List (String × String) :=
  (if isEmail r.email then [] else [("email", "Please enter a valid email")]) ++
  (if r.password.data.isEmpty then [("password", "Password is required")] else [])

/-- The `POST /signin` handler: validation, then user lookup by email, then the
`verified` gate, then the bcrypt comparison, then token issuance.  The store is
never modified.  (The inner `catch (tokenError)` 500 branch fires only when
`jwt.sign` itself throws, i.e. on signing misconfiguration; token signing is
total in the model.) -/
def signin (cfg : Config) (db : UserStore) (r : SigninReq) (now : Nat) : Response :=
  let errs := signinValidationErrors r
  if !errs.isEmpty then
    ⟨400, errorsBody errs⟩
  else
    match findByEmail db r.email with
    | none => ⟨400, .obj [("message", .str "Invalid email or password")]⟩
    | some existingUser =>
        if !existingUser.verified then
          ⟨401, .obj [("message", .str "Please verify your email before logging in."),
                      ("needsVerification", .bool true)]⟩
        else if !(bcryptCompare r.password existingUser.password) then
          ⟨400, .obj [("message", .str "Invalid email or password")]⟩
        else
          let (accessToken, refreshToken) := generateTokens cfg existingUser now
          ⟨200, .obj [("message", .str "Login Successful"),
                      ("accessToken", .jwt accessToken),
                      ("refreshToken", .jwt refreshToken),
                      ("user", .obj [("id", .nat existingUser.id),
                                     ("fullName", .str existingUser.fullName),
                                     ("email", .str existingUser.email)])]⟩

/-! ## POST /refresh (`routes/auth.js` lines 300–328)

The handler reads only the request body and the signing configuration; it never
touches the `User` store, which is why the embedding takes no store argument. -/

/-- The `POST /refresh` handler: 401 when no token is in the body; 403 when
`jwt.verify` against `REFRESH_TOKEN_SECRET` fails for any reason (expired or
tampered alike); otherwise a fresh access token minted from the refresh
token's `{id, email}` claims. -/
def refresh (cfg : Config) (body : Option Jwt) (now : Nat) : Response :=
  match body with
  | none => ⟨401, .obj [("message", .str "No refresh token provided")]⟩
  | some refreshToken =>
      match jwtVerify .refreshSecret now refreshToken with
      | .error _ => ⟨403, .obj [("message", .str "Invalid refresh token")]⟩
      | .ok userData =>
          ⟨200, .obj [("accessToken",
            .jwt (Jwt.signed ⟨userData.id, userData.email⟩ .jwtSecret
                    (now + cfg.jwtExpiresIn)))]⟩

/-! ## authenticate middleware (`middleware/authMiddleware.js`) -/

/-- Observable outcome of the `authenticate` middleware.  `attachedThenRefError`
is the path taken on a valid token: `req.user = {id, email}` is attached and
`next()` is called, but the `try` block does not return, so control falls
through to `if (err.name === "TokenExpiredError")` where `err` (a catch-scoped
binding) is not in scope, and a `ReferenceError` is thrown after the downstream
handler was already started.  `expired401` is the 401 "Token has expired"
response of that trailing branch. -/
inductive MwOutcome where
  | missing401
  | attachedThenRefError (user : Payload)
  | invalid403
  | expired401
deriving DecidableEq, Repr, BEq

/-- The `authenticate` middleware.  `header` is the bearer token extracted from
the `Authorization` header (`none` when the header is absent or does not start
with `Bearer `). -/
def authenticate (header : Option Jwt) (now : Nat) : MwOutcome :=
  match header with
  | none => .missing401
  | some token =>
      match jwtVerify .jwtSecret now token with
      | .ok decoded =>
          -- try block runs to completion (req.user attached, next() called),
          -- then the dangling `if (err.name ...)` dereferences the unbound
          -- `err` and raises a ReferenceError
          .attachedThenRefError ⟨decoded.id, decoded.email⟩
      | .error _ =>
          -- the catch returns 403 for every verify failure, so the trailing
          -- `expired401` branch can never run
          .invalid403

/-! ## GET /profile (`routes/auth.js` lines 331–347) -/

/-- The `GET /profile` handler body, given the `req.user` payload attached by
`authenticate`.  `findById(...).select("-password")` loads the document with
the password path excluded, so the serialised user carries every other field
and no `password` key. -/
def profile (db : UserStore) (reqUser : Payload) : Response :=
  match findById db reqUser.id with
  | none => ⟨404, .obj [("message", .str "User not found")]⟩
  | some userData =>
      ⟨200, .obj [("message", .str "Protected route accessed"),
                  ("user", .obj [("id", .nat userData.id),
                                 ("fullName", .str userData.fullName),
                                 ("email", .str userData.email),
                                 ("verified", .bool userData.verified)])]⟩

/-! ## Helper lemmas -/

theorem hasKey_str (k s : String) : hasKey k (.str s) = false := rfl

theorem hasKey_nat (k : String) (n : Nat) : hasKey k (.nat n) = false := rfl

theorem hasKey_bool (k : String) (b : Bool) : hasKey k (.bool b) = false := rfl

theorem hasKey_jwt (k : String) (t : Jwt) : hasKey k (.jwt t) = false := rfl

theorem hasKey_obj (k : String) (fs : List (String × Json)) :
    hasKey k (.obj fs) = hasKeyFields k fs := rfl

theorem hasKey_arr (k : String) (es : List Json) :
    hasKey k (.arr es) = hasKeyElems k es := rfl

theorem hasKeyFields_nil (k : String) : hasKeyFields k [] = false := rfl

theorem hasKeyFields_cons (k key : String) (v : Json) (rest : List (String × Json)) :
    hasKeyFields k ((key, v) :: rest) = (key == k || hasKey k v || hasKeyFields k rest) := rfl

theorem hasKeyElems_nil (k : String) : hasKeyElems k [] = false := rfl

theorem hasKeyElems_cons (k : String) (v : Json) (rest : List Json) :
    hasKeyElems k (v :: rest) = (hasKey k v || hasKeyElems k rest) := rfl

/-- Validation-error bodies carry only the keys `errors`, `path` and `msg`. -/
theorem hasKey_password_errorsBody (errs : List (String × String)) :
    hasKey "password" (errorsBody errs) = false := by
  have h : hasKeyElems "password"
      (errs.map (fun e => Json.obj [("path", Json.str e.1), ("msg", Json.str e.2)])) = false := by
    induction errs with
    | nil => rfl
    | cons e rest ih =>
        simp only [List.map_cons, hasKeyElems_cons, hasKey_obj, hasKeyFields_cons,
          hasKeyFields_nil, hasKey_str, ih]
        decide
  simp only [errorsBody, hasKey_obj, hasKeyFields_cons, hasKeyFields_nil, hasKey_arr, h]
  decide

/-- `List.find?` commutes with a map that does not change the predicate's
verdict. -/
theorem find?_map_pres {α : Type} (p : α → Bool) (f : α → α)
    (hf : ∀ x, p (f x) = p x) (l : List α) :
    (l.map f).find? p = (l.find? p).map f := by
  induction l with
  | nil => rfl
  | cons x rest ih =>
      rw [List.map_cons, List.find?_cons, List.find?_cons, hf]
      cases hp : p x
      · simpa using ih
      · rfl

/-- The conditional update of `setVerified` leaves the id — and hence the
`findById` predicate — unchanged. -/
theorem setVerified_pred_pres (uid : Nat) (x : User) :
    ((if x.id == uid then { x with verified := true } else x : User).id == uid)
      = (x.id == uid) := by
  cases hb : x.id == uid <;> simp [hb]

/-- `findOneAndUpdate({_id: uid}, {verified: true}, {new: true})`: looking the
user up again after the update yields the record with `verified := true`. -/
theorem findById_setVerified (db : UserStore) (uid : Nat) (u : User)
    (hfind : findById db uid = some u) :
    findById (setVerified db uid) uid = some { u with verified := true } := by
  unfold findById setVerified at *
  rw [find?_map_pres _ _ (fun x => setVerified_pred_pres uid x), hfind]
  have hp := List.find?_some hfind
  simp only [] at hp
  simp [hp]
  exact fun h => absurd (by simpa using hp) h

/-- Updating `verified` to `true` on an already-verified user is the
identity. -/
theorem set_verified_eq_self (u : User) (h : u.verified = true) :
    ({ u with verified := true } : User) = u := by
  obtain ⟨i, fn, em, pw, v⟩ := u
  simp only at h
  subst h
  rfl

theorem attached_beq_expired401 (p : Payload) :
    (MwOutcome.attachedThenRefError p == MwOutcome.expired401) = false := rfl

/-! ## Claims -/

/-- C1, counterexample: the claim asserts the signin success body's user object
contains a `verified` field.  It does not: for the concrete store holding the
verified user `a@x.com` and a correct-password signin, the 200 response body
contains no `verified` key anywhere (the user object carries only `id`,
`fullName` and `email`; `routes/auth.js` lines 280–284). -/
theorem signin_success_user_object_lacks_verified :
    (signin ⟨3600, 604800⟩ [⟨1, "A User", "a@x.com", bcryptHash "Passw0rd!" 10, true⟩]
        ⟨"a@x.com", "Passw0rd!"⟩ 0).status = 200
    ∧ hasKey "verified"
        (signin ⟨3600, 604800⟩ [⟨1, "A User", "a@x.com", bcryptHash "Passw0rd!" 10, true⟩]
          ⟨"a@x.com", "Passw0rd!"⟩ 0).body = false := by
  decide

/-- C1 (amended): for every successful signin (existing user, verified=true,
matching password), the response carries one access token, one refresh token,
and a user object with exactly the non-sensitive fields `id`, `fullName` and
`email` (no `verified` field). -/
theorem signin_success_response_fields (cfg : Config) (db : UserStore)
    (r : SigninReq) (u : User) (now : Nat)
    (hval : signinValidationErrors r = [])
    (hfind : findByEmail db r.email = some u)
    (hver : u.verified = true)
    (hpw : bcryptCompare r.password u.password = true) :
    signin cfg db r now =
      ⟨200, .obj [("message", .str "Login Successful"),
                  ("accessToken", .jwt (generateTokens cfg u now).1),
                  ("refreshToken", .jwt (generateTokens cfg u now).2),
                  ("user", .obj [("id", .nat u.id),
                                 ("fullName", .str u.fullName),
                                 ("email", .str u.email)])]⟩ := by
  simp [signin, hval, hfind, hver, hpw, generateTokens]

/-- C1 witness: the amended theorem at the concrete verified user `a@x.com`. -/
theorem signin_success_response_fields_witness :
    signin ⟨3600, 604800⟩ [⟨1, "A User", "a@x.com", bcryptHash "Passw0rd!" 10, true⟩]
        ⟨"a@x.com", "Passw0rd!"⟩ 0 =
      ⟨200, .obj [("message", .str "Login Successful"),
                  ("accessToken", .jwt (generateTokens ⟨3600, 604800⟩
                    ⟨1, "A User", "a@x.com", bcryptHash "Passw0rd!" 10, true⟩ 0).1),
                  ("refreshToken", .jwt (generateTokens ⟨3600, 604800⟩
                    ⟨1, "A User", "a@x.com", bcryptHash "Passw0rd!" 10, true⟩ 0).2),
                  ("user", .obj [("id", .nat 1),
                                 ("fullName", .str "A User"),
                                 ("email", .str "a@x.com")])]⟩ :=
  signin_success_response_fields ⟨3600, 604800⟩
    [⟨1, "A User", "a@x.com", bcryptHash "Passw0rd!" 10, true⟩]
    ⟨"a@x.com", "Passw0rd!"⟩ ⟨1, "A User", "a@x.com", bcryptHash "Passw0rd!" 10, true⟩ 0
    (by decide) (by decide) rfl (by decide)

/-- C4: for every stored user with verified=false, signin with that user's
email and the correct password yields exactly the 401 EmailNotVerified
response — hence neither the 400 InvalidCredentials response nor a success
(`routes/auth.js` lines 257–263: the verified gate precedes the password
comparison). -/
theorem signin_unverified_correct_password_401 (cfg : Config) (db : UserStore)
    (r : SigninReq) (u : User) (now : Nat)
    (hval : signinValidationErrors r = [])
    (hfind : findByEmail db r.email = some u)
    (hver : u.verified = false)
    (hpw : bcryptCompare r.password u.password = true) :
    signin cfg db r now =
      ⟨401, .obj [("message", .str "Please verify your email before logging in."),
                  ("needsVerification", .bool true)]⟩ := by
  simp [signin, hval, hfind, hver]

/-- C4 witness: the concrete unverified user `b@x.com` with its correct
password. -/
theorem signin_unverified_correct_password_401_witness :
    signin ⟨3600, 604800⟩ [⟨2, "B User", "b@x.com", bcryptHash "Passw0rd!" 10, false⟩]
        ⟨"b@x.com", "Passw0rd!"⟩ 0 =
      ⟨401, .obj [("message", .str "Please verify your email before logging in."),
                  ("needsVerification", .bool true)]⟩ :=
  signin_unverified_correct_password_401 ⟨3600, 604800⟩
    [⟨2, "B User", "b@x.com", bcryptHash "Passw0rd!" 10, false⟩]
    ⟨"b@x.com", "Passw0rd!"⟩ ⟨2, "B User", "b@x.com", bcryptHash "Passw0rd!" 10, false⟩ 0
    (by decide) (by decide) rfl (by decide)

/-- C5: a signin for an email matching no stored user and a signin for an
existing verified user's email with a wrong password produce the very same
response: status 400 and message "Invalid email or password"
(`routes/auth.js` lines 252–269). -/
theorem signin_enumeration_resistant (cfg : Config) (db : UserStore)
    (r₁ r₂ : SigninReq) (u : User) (now : Nat)
    (hval₁ : signinValidationErrors r₁ = [])
    (hval₂ : signinValidationErrors r₂ = [])
    (hfind₁ : findByEmail db r₁.email = none)
    (hfind₂ : findByEmail db r₂.email = some u)
    (hver : u.verified = true)
    (hpw : bcryptCompare r₂.password u.password = false) :
    signin cfg db r₁ now = signin cfg db r₂ now
    ∧ signin cfg db r₁ now = ⟨400, .obj [("message", .str "Invalid email or password")]⟩ := by
  constructor <;> simp [signin, hval₁, hval₂, hfind₁, hfind₂, hver, hpw]

/-- C5 witness: unknown email `c@x.com` vs verified user `a@x.com` with a wrong
password. -/
theorem signin_enumeration_resistant_witness :
    signin ⟨3600, 604800⟩ [⟨1, "A User", "a@x.com", bcryptHash "Passw0rd!" 10, true⟩]
        ⟨"c@x.com", "Guess123"⟩ 0 =
      signin ⟨3600, 604800⟩ [⟨1, "A User", "a@x.com", bcryptHash "Passw0rd!" 10, true⟩]
        ⟨"a@x.com", "Guess123"⟩ 0
    ∧ signin ⟨3600, 604800⟩ [⟨1, "A User", "a@x.com", bcryptHash "Passw0rd!" 10, true⟩]
        ⟨"c@x.com", "Guess123"⟩ 0 =
      ⟨400, .obj [("message", .str "Invalid email or password")]⟩ :=
  signin_enumeration_resistant ⟨3600, 604800⟩
    [⟨1, "A User", "a@x.com", bcryptHash "Passw0rd!" 10, true⟩]
    ⟨"c@x.com", "Guess123"⟩ ⟨"a@x.com", "Guess123"⟩
    ⟨1, "A User", "a@x.com", bcryptHash "Passw0rd!" 10, true⟩ 0
    (by decide) (by decide) (by decide) (by decide) rfl (by decide)

/-- C6: for a stored unverified user, signin with that email yields the 401
EmailNotVerified response regardless of the submitted password (the verified
gate precedes the password comparison), while a nonexistent email yields 400 —
so the two cases are observably different even under a wrong password. -/
theorem signin_unverified_distinguishable (cfg : Config) (db : UserStore)
    (r r' : SigninReq) (u : User) (now now' : Nat)
    (hval : signinValidationErrors r = [])
    (hfind : findByEmail db r.email = some u)
    (hver : u.verified = false)
    (hval' : signinValidationErrors r' = [])
    (hfind' : findByEmail db r'.email = none) :
    signin cfg db r now =
      ⟨401, .obj [("message", .str "Please verify your email before logging in."),
                  ("needsVerification", .bool true)]⟩
    ∧ signin cfg db r' now' = ⟨400, .obj [("message", .str "Invalid email or password")]⟩
    ∧ ((signin cfg db r now).status == (signin cfg db r' now').status) = false := by
  refine ⟨?_, ?_, ?_⟩ <;> simp [signin, hval, hfind, hver, hval', hfind']

/-- C6 witness: unverified user `b@x.com` under a wrong password vs unknown
email `c@x.com`. -/
theorem signin_unverified_distinguishable_witness :
    signin ⟨3600, 604800⟩ [⟨2, "B User", "b@x.com", bcryptHash "Passw0rd!" 10, false⟩]
        ⟨"b@x.com", "WrongPw99"⟩ 0 =
      ⟨401, .obj [("message", .str "Please verify your email before logging in."),
                  ("needsVerification", .bool true)]⟩
    ∧ signin ⟨3600, 604800⟩ [⟨2, "B User", "b@x.com", bcryptHash "Passw0rd!" 10, false⟩]
        ⟨"c@x.com", "WrongPw99"⟩ 0 =
      ⟨400, .obj [("message", .str "Invalid email or password")]⟩
    ∧ ((signin ⟨3600, 604800⟩ [⟨2, "B User", "b@x.com", bcryptHash "Passw0rd!" 10, false⟩]
          ⟨"b@x.com", "WrongPw99"⟩ 0).status ==
       (signin ⟨3600, 604800⟩ [⟨2, "B User", "b@x.com", bcryptHash "Passw0rd!" 10, false⟩]
          ⟨"c@x.com", "WrongPw99"⟩ 0).status) = false :=
  signin_unverified_distinguishable ⟨3600, 604800⟩
    [⟨2, "B User", "b@x.com", bcryptHash "Passw0rd!" 10, false⟩]
    ⟨"b@x.com", "WrongPw99"⟩ ⟨"c@x.com", "WrongPw99"⟩
    ⟨2, "B User", "b@x.com", bcryptHash "Passw0rd!" 10, false⟩ 0 0
    (by decide) (by decide) rfl (by decide) (by decide)

/-- C2, counterexample: the claim asserts that no token of another kind — e.g.
an access token carrying an id claim — can flip `verified`.  But verification
tokens are signed with the same `JWT_SECRET` as access tokens and
`GET /verify-email/:token` checks only signature and expiry, so presenting the
access token issued by `generateTokens` for the unverified user `b@x.com`
succeeds (status 200) and sets that user's `verified` to `true`. -/
theorem access_token_triggers_verification :
    ((verifyEmail [⟨2, "B User", "b@x.com", bcryptHash "Passw0rd!" 10, false⟩]
        (generateTokens ⟨3600, 604800⟩
          ⟨2, "B User", "b@x.com", bcryptHash "Passw0rd!" 10, false⟩ 0).1 1).1
      = [⟨2, "B User", "b@x.com", bcryptHash "Passw0rd!" 10, true⟩])
    ∧ ((verifyEmail [⟨2, "B User", "b@x.com", bcryptHash "Passw0rd!" 10, false⟩]
        (generateTokens ⟨3600, 604800⟩
          ⟨2, "B User", "b@x.com", bcryptHash "Passw0rd!" 10, false⟩ 0).1 1).2.status
      = 200) := by
  decide

/-- C2 (amended): across the store-mutating operations, `verified` only ever
moves from `false` to `true`: a signup either leaves the store unchanged or
appends one new user with `verified = false`, and a verify-email request either
leaves the store unchanged or — only when the presented token is an unexpired
token signed with `JWT_SECRET` — sets `verified := true` on exactly the users
whose id equals the token's id claim.  (The remaining operations `signin`,
`refresh`, `profile` and the `authenticate` middleware return only a response
and cannot touch the store, as their embedded types show.)  No check
distinguishes a purpose-built verification token from any other
`JWT_SECRET`-signed token carrying an id claim. -/
theorem verified_flag_monotone (db : UserStore) (tok : Jwt) (now : Nat)
    (r : SignupReq) (freshId salt : Nat) (mail : MailResult) :
    ((signup db r freshId salt now mail).1 = db
      ∨ (signup db r freshId salt now mail).1 =
          db ++ [⟨freshId, r.fullName, r.email, bcryptHash r.password salt, false⟩])
    ∧ ((verifyEmail db tok now).1 = db
      ∨ ∃ p exp, tok = Jwt.signed p Secret.jwtSecret exp ∧ now < exp
          ∧ (verifyEmail db tok now).1 = setVerified db p.id) := by
  constructor
  · cases hv : (signupValidationErrors r).isEmpty
    · left
      simp [signup, hv]
    · cases hfind : findByEmail db r.email with
      | some u => left; simp [signup, hv, hfind]
      | none => cases mail <;> simp [signup, hv, hfind]
  · cases tok with
    | malformed s => left; rfl
    | signed p sec exp =>
        cases sec with
        | refreshSecret => left; rfl
        | jwtSecret =>
            by_cases hexp : now < exp
            · cases hfind : findById db p.id with
              | none => left; simp [verifyEmail, jwtVerify, hexp, hfind]
              | some u =>
                  right
                  exact ⟨p, exp, rfl, hexp, by simp [verifyEmail, jwtVerify, hexp, hfind]⟩
            · left; simp [verifyEmail, jwtVerify, hexp]

/-- C3: the claim describes the intended middleware contract (valid token ⇒
attach `{id, email}` and continue with no error; expired token ⇒ reachable 401
"Token has expired").  The code violates it: on a valid token the `try` block
falls through to `if (err.name === "TokenExpiredError")` where `err` is not in
scope, raising a ReferenceError after `next()` was already called; and since
the `catch` returns 403 for every verification failure, the 401 branch is dead
code — for no input does `authenticate` produce it. -/
theorem authenticate_success_raises_and_expired_branch_dead :
    (authenticate (some (Jwt.signed ⟨1, some "a@x.com"⟩ .jwtSecret 100)) 0
      = .attachedThenRefError ⟨1, some "a@x.com"⟩)
    ∧ (authenticate (some (Jwt.signed ⟨1, some "a@x.com"⟩ .jwtSecret 100)) 200
      = .invalid403)
    ∧ (∀ header now, (authenticate header now == MwOutcome.expired401) = false) := by
  refine ⟨rfl, rfl, ?_⟩
  intro header now
  cases header with
  | none => rfl
  | some t =>
      cases h : jwtVerify Secret.jwtSecret now t with
      | ok p => simp [authenticate, h, attached_beq_expired401]
      | error e => simp only [authenticate, h]; rfl

/-- C7: the refresh handler answers 401 to a missing token, 403 to any token
that fails verification against `REFRESH_TOKEN_SECRET` (expired or tampered
alike), and, for a valid unexpired refresh token, 200 with a fresh access
token signed with `JWT_SECRET` whose `{id, email}` claims are exactly the
refresh token's claims.  The handler's embedding takes no store argument
because `routes/auth.js` lines 300–328 never reference the `User` store. -/
theorem refresh_contract (cfg : Config) (p : Payload) (exp now : Nat) (bad : Jwt)
    (hexp : now < exp)
    (hbad : ∃ e, jwtVerify Secret.refreshSecret now bad = .error e) :
    refresh cfg none now = ⟨401, .obj [("message", .str "No refresh token provided")]⟩
    ∧ refresh cfg (some bad) now = ⟨403, .obj [("message", .str "Invalid refresh token")]⟩
    ∧ refresh cfg (some (Jwt.signed p .refreshSecret exp)) now =
        ⟨200, .obj [("accessToken",
          .jwt (Jwt.signed p .jwtSecret (now + cfg.jwtExpiresIn)))]⟩ := by
  obtain ⟨e, hbad⟩ := hbad
  refine ⟨rfl, ?_, ?_⟩
  · simp [refresh, hbad]
  · simp [refresh, jwtVerify, hexp]

/-- C7 witness: a refresh token for user 1 that is still live at time 0, and a
tampered token. -/
theorem refresh_contract_witness :
    refresh ⟨3600, 604800⟩ none 0 =
      ⟨401, .obj [("message", .str "No refresh token provided")]⟩
    ∧ refresh ⟨3600, 604800⟩ (some (Jwt.malformed "tampered")) 0 =
      ⟨403, .obj [("message", .str "Invalid refresh token")]⟩
    ∧ refresh ⟨3600, 604800⟩
        (some (Jwt.signed ⟨1, some "a@x.com"⟩ .refreshSecret 604800)) 0 =
      ⟨200, .obj [("accessToken",
        .jwt (Jwt.signed ⟨1, some "a@x.com"⟩ .jwtSecret (0 + 3600)))]⟩ :=
  refresh_contract ⟨3600, 604800⟩ ⟨1, some "a@x.com"⟩ 604800 0 (Jwt.malformed "tampered")
    (by decide) ⟨JwtError.invalid, rfl⟩

/-- C8: when a signup passes validation and the duplicate check but the
verification-email dispatch fails after `save()`, the new user record (with
`verified = false`) stays appended to the store while the response is the 500
ServerError — no rollback or compensation (`routes/auth.js` lines 77–106). -/
theorem signup_mail_failure_keeps_user (db : UserStore) (r : SignupReq)
    (freshId salt now : Nat)
    (hval : signupValidationErrors r = [])
    (hdup : findByEmail db r.email = none) :
    signup db r freshId salt now .failed =
      (db ++ [⟨freshId, r.fullName, r.email, bcryptHash r.password salt, false⟩],
       ⟨500, .obj [("message", .str "Server error")]⟩) := by
  simp [signup, hval, hdup]

/-- C8 witness: a fresh signup of `c@x.com` into the single-user store whose
mail dispatch fails. -/
theorem signup_mail_failure_keeps_user_witness :
    signup [⟨1, "A User", "a@x.com", bcryptHash "Passw0rd!" 10, true⟩]
        ⟨"C User", "c@x.com", "Str0ngPass"⟩ 2 7 0 .failed =
      ([⟨1, "A User", "a@x.com", bcryptHash "Passw0rd!" 10, true⟩,
        ⟨2, "C User", "c@x.com", bcryptHash "Str0ngPass" 7, false⟩],
       ⟨500, .obj [("message", .str "Server error")]⟩) :=
  signup_mail_failure_keeps_user
    [⟨1, "A User", "a@x.com", bcryptHash "Passw0rd!" 10, true⟩]
    ⟨"C User", "c@x.com", "Str0ngPass"⟩ 2 7 0 (by decide) (by decide)

/-- C9: consuming a valid, unexpired verification token for an
already-verified user succeeds (status 200 with the success page) and leaves
that user's record exactly as it was, `verified = true` — a no-op, not an
error (`findOneAndUpdate` simply writes `true` again). -/
theorem verify_email_idempotent (db : UserStore) (u : User) (t₀ now : Nat)
    (hfind : findById db u.id = some u)
    (hver : u.verified = true)
    (hexp : now < t₀ + 3600) :
    (verifyEmail db (verificationToken u.id t₀) now).2 =
      ⟨200, .str (verifySuccessHtml u.fullName)⟩
    ∧ findById (verifyEmail db (verificationToken u.id t₀) now).1 u.id = some u := by
  have h1 : jwtVerify .jwtSecret now (verificationToken u.id t₀)
      = .ok ⟨u.id, none⟩ := by
    simp [verificationToken, jwtVerify, hexp]
  constructor
  · simp [verifyEmail, h1, hfind]
  · have h2 : findById (setVerified db u.id) u.id = some { u with verified := true } :=
      findById_setVerified db u.id u hfind
    rw [set_verified_eq_self u hver] at h2
    simp [verifyEmail, h1, hfind, h2]

/-- C9 witness: re-verifying the already-verified user `a@x.com` with a fresh
verification token issued at time 0, consumed at time 1. -/
theorem verify_email_idempotent_witness :
    (verifyEmail [⟨1, "A User", "a@x.com", bcryptHash "Passw0rd!" 10, true⟩]
        (verificationToken 1 0) 1).2 =
      ⟨200, .str (verifySuccessHtml "A User")⟩
    ∧ findById (verifyEmail [⟨1, "A User", "a@x.com", bcryptHash "Passw0rd!" 10, true⟩]
        (verificationToken 1 0) 1).1 1 =
      some ⟨1, "A User", "a@x.com", bcryptHash "Passw0rd!" 10, true⟩ :=
  verify_email_idempotent [⟨1, "A User", "a@x.com", bcryptHash "Passw0rd!" 10, true⟩]
    ⟨1, "A User", "a@x.com", bcryptHash "Passw0rd!" 10, true⟩ 0 1
    (by decide) rfl (by decide)

/-- C10: no response body of any operation — signup, verify-email, signin,
refresh, profile — ever contains a `password` key: signup answers with a
message only, signin's user object carries `id`/`fullName`/`email`, and
profile serialises the user loaded with `select("-password")`, so the stored
password hash never appears in any response payload. -/
theorem no_password_key_in_responses :
    (∀ db r freshId salt now mail,
      hasKey "password" (signup db r freshId salt now mail).2.body = false)
    ∧ (∀ db tok now, hasKey "password" (verifyEmail db tok now).2.body = false)
    ∧ (∀ cfg db r now, hasKey "password" (signin cfg db r now).body = false)
    ∧ (∀ cfg b now, hasKey "password" (refresh cfg b now).body = false)
    ∧ (∀ db q, hasKey "password" (profile db q).body = false) := by
  refine ⟨?_, ?_, ?_, ?_, ?_⟩
  · intro db r freshId salt now mail
    cases hv : (signupValidationErrors r).isEmpty
    · simp [signup, hv, hasKey_password_errorsBody]
    · cases hfind : findByEmail db r.email with
      | some u => simp only [signup, hv, hfind]; rfl
      | none => cases mail <;> (simp only [signup, hv, hfind]; rfl)
  · intro db tok now
    cases h : jwtVerify Secret.jwtSecret now tok with
    | error e => simp only [verifyEmail, h]; rfl
    | ok p =>
        cases hfind : findById db p.id with
        | none => simp only [verifyEmail, h, hfind]; rfl
        | some u => simp only [verifyEmail, h, hfind]; rfl
  · intro cfg db r now
    cases hv : (signinValidationErrors r).isEmpty
    · simp [signin, hv, hasKey_password_errorsBody]
    · cases hfind : findByEmail db r.email with
      | none => simp only [signin, hv, hfind]; rfl
      | some u =>
          cases hver : u.verified
          · simp only [signin, hv, hfind, hver]; rfl
          · cases hpw : bcryptCompare r.password u.password
            · simp only [signin, hv, hfind, hver, hpw]; rfl
            · simp only [signin, hv, hfind, hver, hpw, generateTokens]; rfl
  · intro cfg b now
    cases b with
    | none => rfl
    | some t =>
        cases h : jwtVerify Secret.refreshSecret now t with
        | error e => simp only [refresh, h]; rfl
        | ok p => simp only [refresh, h]; rfl
  · intro db q
    cases hfind : findById db q.id with
    | none => simp only [profile, hfind]; rfl
    | some u => simp only [profile, hfind]; rfl

end Leadway
